import Mathlib

/-!
# PlexPoster-Overlay: the webhook-to-poster pipeline of `main.go`

A shallow embedding of `handleWebhook`, `fetchPoster` and
`replaceWithTransparent`, together with the parts of Go's `image` package and
of the package `github.com/disintegration/imaging` (imported by `main.go`)
that `fetchPoster` calls.

* Go `int` values are `Int` (the extents of images stay far below 2^63, so
  no operation overflows); Go's `/` on `int` is `Int.tdiv`.
* An image is its bounds rectangle plus a pixel function.
* The network, the image codecs, the `float64` arithmetic of the resizer and
  the failures of the operating system are fields of an environment record
  `Env`; every theorem quantifies over it.
* Side effects are explicit: a `World` holds the file system (path to
  content) and the trace of calls that were made.
-/

namespace PlexPoster

/-! ## Go `image` geometry -/

/-- Raw file or network content. -/
abbrev Bytes := List Nat

/-- Go `image.Point`. -/
structure Point where
  X : Int
  Y : Int
deriving DecidableEq, Repr

/-- Go `image.Rectangle`: contains the points with `Min.X ≤ x < Max.X` and
`Min.Y ≤ y < Max.Y`. -/
structure Rectangle where
  Min : Point
  Max : Point
deriving DecidableEq, Repr

/-- Go `Point.Add`. -/
def Point.Add (p q : Point) : Point := ⟨p.X + q.X, p.Y + q.Y⟩

/-- Go `Point.Sub`. -/
def Point.Sub (p q : Point) : Point := ⟨p.X - q.X, p.Y - q.Y⟩

/-- Go `Rectangle.Dx`: the width. -/
def Rectangle.Dx (r : Rectangle) : Int := r.Max.X - r.Min.X

/-- Go `Rectangle.Dy`: the height. -/
def Rectangle.Dy (r : Rectangle) : Int := r.Max.Y - r.Min.Y

/-- Go `Rectangle.Size`. -/
def Rectangle.Size (r : Rectangle) : Point := ⟨r.Dx, r.Dy⟩

/-- Go `Rectangle.Empty`. -/
def Rectangle.Empty (r : Rectangle) : Bool :=
  decide (r.Min.X ≥ r.Max.X) || decide (r.Min.Y ≥ r.Max.Y)

/-- Go `image.ZR`, the zero rectangle. -/
def ZR : Rectangle := ⟨⟨0, 0⟩, ⟨0, 0⟩⟩

/-- Go `Rectangle.Intersect`: clamp `r` to `s`, and return `ZR` when nothing
is left. -/
def Rectangle.Intersect (r s : Rectangle) : Rectangle :=
  let minX := if r.Min.X < s.Min.X then s.Min.X else r.Min.X
  let minY := if r.Min.Y < s.Min.Y then s.Min.Y else r.Min.Y
  let maxX := if r.Max.X > s.Max.X then s.Max.X else r.Max.X
  let maxY := if r.Max.Y > s.Max.Y then s.Max.Y else r.Max.Y
  let r1 : Rectangle := ⟨⟨minX, minY⟩, ⟨maxX, maxY⟩⟩
  if r1.Empty then ZR else r1

/-- Membership of the pixel `(x, y)` in a rectangle (Go `Point.In`). -/
def Rectangle.Has (r : Rectangle) (x y : Int) : Bool :=
  decide (r.Min.X ≤ x) && decide (x < r.Max.X) && decide (r.Min.Y ≤ y) && decide (y < r.Max.Y)

/-- Go `image.Rect x0 y0 x1 y1`: the coordinates are put in order. -/
def Rect (x0 y0 x1 y1 : Int) : Rectangle :=
  let (a0, a1) := if x0 > x1 then (x1, x0) else (x0, x1)
  let (b0, b1) := if y0 > y1 then (y1, y0) else (y0, y1)
  ⟨⟨a0, b0⟩, ⟨a1, b1⟩⟩

/-- Go `color.NRGBA`. -/
structure NRGBA where
  R : Nat
  G : Nat
  B : Nat
  A : Nat
deriving DecidableEq, Repr

/-- An image: its bounds and the colour of each pixel, in the coordinates of
the bounds. Only pixels inside `Bounds` are meaningful. -/
structure Image where
  Bounds : Rectangle
  At : Int → Int → NRGBA

/-- The `float64` computations of `imaging.Fit` and `imaging.Resize`, and the
resampling kernel. They are not interpreted: each theorem holds for every
value they may return. The three numbers are conversions to `int` of
non-negative floats, which stay below 2^63 for image and canvas extents below
2^31, hence natural numbers. -/
structure FloatArith where
  /-- The test `float64(srcW)/float64(srcH) > float64(maxW)/float64(maxH)`. -/
  aspectGt : (srcW srcH maxW maxH : Int) → Bool
  /-- The value `int(float64(n) / (float64(srcW)/float64(srcH)))`. -/
  divAspect : (n srcW srcH : Int) → Nat
  /-- The value `int(float64(n) * (float64(srcW)/float64(srcH)))`. -/
  mulAspect : (n srcW srcH : Int) → Nat
  /-- The value `math.Floor(float64(n)*float64(a)/float64(b) + 0.5)`. -/
  floorHalf : (n a b : Int) → Nat
  /-- The pixels of `img` resampled (Lanczos) to `w` by `h`. -/
  resample : Image → (w h : Int) → Int → Int → NRGBA

namespace imaging

/-- The empty image `&image.NRGBA{}`. -/
def emptyNRGBA : Image := ⟨ZR, fun _ _ => ⟨0, 0, 0, 0⟩⟩

/-- Package function `imaging.New` (tools.go): a `width` by `height` image
filled with one colour. Its first statement is
`if width <= 0 || height <= 0 { return &image.NRGBA{} }`; otherwise the bounds
are `image.Rect(0, 0, width, height)`. -/
def New (width height : Int) (fillColor : NRGBA) : Image :=
  if width ≤ 0 ∨ height ≤ 0 then emptyNRGBA
  else ⟨Rect 0 0 width height, fun _ _ => fillColor⟩

/-- Package function `imaging.Clone` (tools.go): a copy of the pixels into
`image.NewNRGBA(image.Rect(0, 0, w, h))`, with `w` and `h` the width and
height of the bounds of `img`. -/
def Clone (img : Image) : Image :=
  ⟨Rect 0 0 img.Bounds.Dx img.Bounds.Dy,
   fun x y => img.At (img.Bounds.Min.X + x) (img.Bounds.Min.Y + y)⟩

/-- Package function `imaging.Resize` (resize.go), for a filter of positive
support, as Lanczos is. Negative targets, two zero targets and an empty source
give the empty image. A single zero target is replaced by
`int(math.Max(1.0, math.Floor(tmp+0.5)))` with `tmp` the extent that keeps the
aspect ratio. The result is resampled to `dstW` by `dstH` (horizontally, then
vertically), or is a copy when the source has that size already. -/
def Resize (fa : FloatArith) (img : Image) (width height : Int) : Image :=
  if width < 0 ∨ height < 0 then emptyNRGBA
  else if width = 0 ∧ height = 0 then emptyNRGBA
  else
    let srcW := img.Bounds.Dx
    let srcH := img.Bounds.Dy
    if srcW ≤ 0 ∨ srcH ≤ 0 then emptyNRGBA
    else
      let dstW : Int := if width = 0 then max 1 (fa.floorHalf height srcW srcH : Int) else width
      let dstH : Int := if height = 0 then max 1 (fa.floorHalf dstW srcH srcW : Int) else height
      if srcW ≠ dstW ∨ srcH ≠ dstH then
        ⟨Rect 0 0 dstW dstH, fa.resample img dstW dstH⟩
      else Clone img

/-- Package function `imaging.Fit` (resize.go), documented as scaling the
image down to fit the given maximum width and height. Non-positive maxima and
an empty source give the empty image; then
`if srcW <= maxW && srcH <= maxH { return Clone(img) }`; otherwise, when
`srcAspectRatio > maxAspectRatio`, `newW = maxW` and
`newH = int(float64(newW) / srcAspectRatio)`; else `newH = maxH` and
`newW = int(float64(newH) * srcAspectRatio)`; the result is
`Resize(img, newW, newH, filter)`. -/
def Fit (fa : FloatArith) (img : Image) (width height : Int) : Image :=
  let maxW := width
  let maxH := height
  if maxW ≤ 0 ∨ maxH ≤ 0 then emptyNRGBA
  else
    let srcW := img.Bounds.Dx
    let srcH := img.Bounds.Dy
    if srcW ≤ 0 ∨ srcH ≤ 0 then emptyNRGBA
    else if srcW ≤ maxW ∧ srcH ≤ maxH then Clone img
    else if fa.aspectGt srcW srcH maxW maxH then
      Resize fa img maxW (fa.divAspect maxW srcW srcH)
    else
      Resize fa img (fa.mulAspect maxH srcW srcH) maxH

/-- Local `pasteRect` of `imaging.Paste`: with
`pos = pos.Sub(background.Bounds().Min)`, the rectangle
`image.Rectangle{Min: pos, Max: pos.Add(img.Bounds().Size())}`. -/
def pasteRect (background img : Image) (pos : Point) : Rectangle :=
  let pos1 := pos.Sub background.Bounds.Min
  ⟨pos1, pos1.Add img.Bounds.Size⟩

/-- Local `interRect` of `imaging.Paste`:
`pasteRect.Intersect(dst.Bounds())` with `dst := Clone(background)`. -/
def interRect (background img : Image) (pos : Point) : Rectangle :=
  (pasteRect background img pos).Intersect (Clone background).Bounds

/-- Package function `imaging.Paste` (tools.go): `dst := Clone(background)`;
when `interRect` is empty `dst` is returned as it is; otherwise each row of
`interRect` in `dst` is overwritten with the pixels of `img` lying at the same
offset from `pasteRect.Min`, and `dst` is returned. -/
def Paste (background img : Image) (pos : Point) : Image :=
  let dst := Clone background
  let pr := pasteRect background img pos
  let ir := interRect background img pos
  if ir.Empty then dst
  else
    ⟨dst.Bounds, fun x y =>
      if ir.Has x y then
        img.At (img.Bounds.Min.X + (x - pr.Min.X)) (img.Bounds.Min.Y + (y - pr.Min.Y))
      else dst.At x y⟩

/-- The point `image.Pt(x0, y0)` computed by `imaging.PasteCenter`:
`centerX := bgMinX + bgW/2`, `x0 := centerX - img.Bounds().Dx()/2`, and the
same on the other axis. -/
def centerPos (background img : Image) : Point :=
  let bgW := background.Bounds.Dx
  let bgH := background.Bounds.Dy
  let centerX := background.Bounds.Min.X + Int.tdiv bgW 2
  let centerY := background.Bounds.Min.Y + Int.tdiv bgH 2
  ⟨centerX - Int.tdiv img.Bounds.Dx 2, centerY - Int.tdiv img.Bounds.Dy 2⟩

/-- Package function `imaging.PasteCenter` (tools.go):
`Paste(background, img, image.Pt(x0, y0))`. -/
def PasteCenter (background img : Image) : Image :=
  Paste background img (centerPos background img)

end imaging

/-! ## Configuration -/

/-- The package-level variables read from the process environment. -/
structure Config where
  plexHost : String
  plexToken : String
  canvasWidth : Int
  canvasHeight : Int

/-- Variable `savePath`. -/
def savePath : String := "./output/now-playing.png"

/-- Variable `transparent`. -/
def transparent : String := "./transparent.png"

/-- Local `tmpFile` of `fetchPoster` and of `replaceWithTransparent`. -/
def tmpFile : String := savePath ++ ".tmp"

/-- Local `resized` of `fetchPoster`. -/
def resizedImage (cfg : Config) (fa : FloatArith) (srcImage : Image) : Image :=
  imaging.Fit fa srcImage cfg.canvasWidth cfg.canvasHeight

/-- Local `canvas` of `fetchPoster`: opaque black. -/
def canvasImage (cfg : Config) : Image :=
  imaging.New cfg.canvasWidth cfg.canvasHeight ⟨0, 0, 0, 255⟩

/-- Local `final` of `fetchPoster`: the image that is encoded. -/
def finalImage (cfg : Config) (fa : FloatArith) (srcImage : Image) : Image :=
  imaging.PasteCenter (canvasImage cfg) (resizedImage cfg fa srcImage)

/-! ## The world outside the process -/

/-- Struct `PlexPayload.Metadata`; the field `Type` is written `Type_`. -/
structure Metadata where
  Type_ : String
  Title : String
  Thumb : String
  GrandparentThumb : String
deriving DecidableEq, Repr

/-- Struct `PlexPayload`, the decoded notification. -/
structure PlexPayload where
  Event : String
  Metadata : Metadata
deriving DecidableEq, Repr

/-- The part of the inbound request `handleWebhook` looks at: the result of
`r.ParseMultipartForm` and the form value `payload`. -/
structure Request where
  parseErr : Option String
  payload : String

/-- What `http.Get` returns when there is no transport error: the status
code and the result of `io.ReadAll(resp.Body)`. -/
structure Response where
  StatusCode : Nat
  Body : Except String Bytes

/-- The collaborators of one run: the network, the codecs, the `float64`
arithmetic of the resizer, and which operating-system calls fail. A failing
read or write reports how many bytes went through before the failure. -/
structure Env where
  fa : FloatArith
  jsonUnmarshal : String → Except String PlexPayload
  httpGet : String → Except String Response
  imageDecode : Bytes → Except String Image
  pngBytes : Image → Bytes
  openErr : String → Option String
  readErr : String → Option (Nat × String)
  createErr : String → Option String
  writeErr : String → Bytes → Option (Nat × String)
  renameErr : String → String → Option String

/-- One call that leaves the process. -/
inductive Effect where
  | log (msg : String)
  | httpError (msg : String) (code : Nat)
  | writeHeader (code : Nat)
  | httpGet (url : String)
  | openFile (path : String)
  | create (path : String)
  | write (path : String) (data : Bytes)
  | rename (oldpath newpath : String)
deriving DecidableEq, Repr

/-- The file system (content of each existing path) and the calls made so
far, oldest first. -/
structure World where
  fs : String → Option Bytes
  trace : List Effect

/-- Recognises the call `http.Get`, the artwork fetch. -/
def Effect.isFetch : Effect → Bool
  | .httpGet _ => true
  | _ => false

/-- Recognises the calls on files. -/
def Effect.isFileOp : Effect → Bool
  | .openFile _ => true
  | .create _ => true
  | .write _ _ => true
  | .rename _ _ => true
  | _ => false

/-- The same environment with every HTTP response relabelled with the status
code `code`. -/
def Env.withStatus (env : Env) (code : Nat) : Env :=
  { env with httpGet := fun url => (env.httpGet url).map (fun r => { r with StatusCode := code }) }

/-- Record a call. -/
def World.emit (w : World) (e : Effect) : World :=
  { w with trace := w.trace ++ [e] }

/-- Set the content of one path. -/
def World.setFile (w : World) (path : String) (c : Option Bytes) : World :=
  { w with fs := fun p => if p = path then c else w.fs p }

/-- Call `os.Open`: fails when the path does not exist or the system refuses. -/
def osOpen (env : Env) (path : String) (w : World) : Option String × World :=
  let w1 := w.emit (.openFile path)
  match env.openErr path with
  | some err => (some err, w1)
  | none =>
    match w.fs path with
    | none => (some ("open " ++ path ++ ": no such file or directory"), w1)
    | some _ => (none, w1)

/-- Call `os.Create`: on success the path holds an empty file. -/
def osCreate (env : Env) (path : String) (w : World) : Option String × World :=
  let w1 := w.emit (.create path)
  match env.createErr path with
  | some err => (some err, w1)
  | none => (none, w1.setFile path (some []))

/-- Writing `data` to the file opened at `path`: on failure only the first
`n` bytes reached the file. -/
def writeFile (env : Env) (path : String) (data : Bytes) (w : World) : Option String × World :=
  let w1 := w.emit (.write path data)
  let old := (w.fs path).getD []
  match env.writeErr path data with
  | some (n, err) => (some err, w1.setFile path (some (old ++ data.take n)))
  | none => (none, w1.setFile path (some (old ++ data)))

/-- Call `os.Rename`: atomic; on success `newpath` holds what `oldpath` held
and `oldpath` is gone; on failure nothing changes. -/
def osRename (env : Env) (oldpath newpath : String) (w : World) : Option String × World :=
  let w1 := w.emit (.rename oldpath newpath)
  match env.renameErr oldpath newpath with
  | some err => (some err, w1)
  | none =>
    match w.fs oldpath with
    | none => (some ("rename " ++ oldpath ++ ": no such file or directory"), w1)
    | some c => (none, (w1.setFile newpath (some c)).setFile oldpath none)

/-- Call `png.Encode(out, m)`: rejects an image without pixels (or with a
side of 2^32 or more) before writing anything, else writes the encoding. -/
def pngEncode (env : Env) (path : String) (m : Image) (w : World) : Option String × World :=
  if m.Bounds.Dx ≤ 0 ∨ m.Bounds.Dy ≤ 0 ∨ m.Bounds.Dx ≥ 2 ^ 32 ∨ m.Bounds.Dy ≥ 2 ^ 32 then
    (some "png: invalid format: invalid image size", w)
  else writeFile env path (env.pngBytes m) w

/-- Call `io.Copy(out, input)`: what can be read of `src` is written to the
file opened at `dst`; a read failure after a successful write is returned. -/
def ioCopy (env : Env) (dst src : String) (w : World) : Option String × World :=
  let content := (w.fs src).getD []
  match env.readErr src with
  | some (n, err) =>
    match writeFile env dst (content.take n) w with
    | (some werr, w1) => (some werr, w1)
    | (none, w1) => (some err, w1)
  | none => writeFile env dst content w

/-! ## The pipeline of `main.go` -/

/-- Function `fetchPoster` (main.go, lines 122 to 158): returns the error
(`none` for `nil`) and the world after the call. -/
def fetchPoster (cfg : Config) (env : Env) (thumbPath : String) (w : World) :
    Option String × World :=
  let url := cfg.plexHost ++ thumbPath ++ "?X-Plex-Token=" ++ cfg.plexToken
  let w1 := w.emit (.httpGet url)
  match env.httpGet url with
  | .error err => (some err, w1)
  | .ok resp =>
    match resp.Body with
    | .error err => (some err, w1)
    | .ok imgData =>
      match env.imageDecode imgData with
      | .error err => (some err, w1)
      | .ok srcImage =>
        let final := finalImage cfg env.fa srcImage
        match osCreate env tmpFile w1 with
        | (some err, w2) => (some err, w2)
        | (none, w2) =>
          match pngEncode env tmpFile final w2 with
          | (some err, w3) => (some err, w3)
          | (none, w3) => osRename env tmpFile savePath w3

/-- Function `replaceWithTransparent` (main.go, lines 160 to 179). -/
def replaceWithTransparent (env : Env) (w : World) : Option String × World :=
  match osOpen env transparent w with
  | (some err, w1) => (some err, w1)
  | (none, w1) =>
    match osCreate env tmpFile w1 with
    | (some err, w2) => (some err, w2)
    | (none, w2) =>
      match ioCopy env tmpFile transparent w2 with
      | (some err, w3) => (some err, w3)
      | (none, w3) => osRename env tmpFile savePath w3

/-- The pattern `if err := f(); err != nil { log.Println(msg, err) }`. -/
def logIfErr (msg : String) (res : Option String × World) : World :=
  match res with
  | (some err, w) => w.emit (.log (msg ++ " " ++ err))
  | (none, w) => w

/-- Local `thumbPath` of `handleWebhook`: the artwork reference handed to
`fetchPoster`. -/
def thumbPath (payload : PlexPayload) : String :=
  if payload.Metadata.Type_ = "episode" ∧ payload.Metadata.GrandparentThumb ≠ "" then
    payload.Metadata.GrandparentThumb
  else payload.Metadata.Thumb

/-- Function `handleWebhook` (main.go, lines 70 to 120). The early `return`
for an ignored media kind writes no status; the other decoded notifications
end with `w.WriteHeader(http.StatusOK)`. -/
def handleWebhook (cfg : Config) (env : Env) (r : Request) (w : World) : World :=
  match r.parseErr with
  | some err =>
    (w.emit (.log ("Failed to parse multipart form: " ++ err))).emit (.httpError "Bad Request" 400)
  | none =>
    let payloadStr := r.payload
    if payloadStr = "" then
      (w.emit (.log "Missing payload")).emit (.httpError "Missing payload" 400)
    else
      match env.jsonUnmarshal payloadStr with
      | .error err =>
        (w.emit (.log ("Invalid JSON payload: " ++ err))).emit (.httpError "Invalid JSON" 400)
      | .ok payload =>
        if payload.Metadata.Type_ ≠ "movie" ∧ payload.Metadata.Type_ ≠ "episode" then
          w.emit (.log ("Ignoring media type: " ++ payload.Metadata.Type_))
        else
          let w1 :=
            if payload.Event = "media.play" ∨ payload.Event = "media.resume" then
              let w0 := w.emit (.log ("Now playing: " ++ payload.Metadata.Title ++ " (" ++
                payload.Metadata.Type_ ++ ")"))
              logIfErr "Error fetching poster:" (fetchPoster cfg env (thumbPath payload) w0)
            else if payload.Event = "media.stop" then
              let w0 := w.emit (.log "Media stopped — hiding poster")
              logIfErr "Error showing transparent image:" (replaceWithTransparent env w0)
            else
              w.emit (.log ("Ignoring event: " ++ payload.Event))
          w1.emit (.writeHeader 200)

/-- The resizer's arithmetic carried out exactly on the integers, which is
what the `float64` expressions give whenever the quotients involved are
exactly representable; resampling is nearest-neighbour. -/
def exactArith : FloatArith where
  aspectGt srcW srcH maxW maxH := decide (srcW * maxH > maxW * srcH)
  divAspect n srcW srcH := (n * srcH / srcW).toNat
  mulAspect n srcW srcH := (n * srcW / srcH).toNat
  floorHalf n a b := ((2 * n * a + b) / (2 * b)).toNat
  resample img w h x y :=
    img.At (img.Bounds.Min.X + x * img.Bounds.Dx / w) (img.Bounds.Min.Y + y * img.Bounds.Dy / h)

/-- A `w` by `h` image of one colour with bounds at the origin. -/
def solidImage (w h : Int) (c : NRGBA) : Image :=
  ⟨⟨⟨0, 0⟩, ⟨w, h⟩⟩, fun _ _ => c⟩

/-- The default configuration (canvas 1080 by 1920) with a token set. -/
def defaultConfig : Config :=
  ⟨"http://plex.local:32400", "secret", 1080, 1920⟩

/-- A payload of the given event and media kind, with both artwork
references. -/
def samplePayload (event kind thumb grandparent : String) : PlexPayload :=
  ⟨event, ⟨kind, "Some Title", thumb, grandparent⟩⟩

/-- A well-formed request whose form value `payload` is the given text. -/
def sampleRequest (payload : String) : Request := ⟨none, payload⟩

/-- An environment in which no operating-system call fails: the JSON
decoder yields `p`, every `http.Get` yields `resp`, every body decodes to
`img`, and the PNG encoding of an image is stood for by its two dimensions. -/
def quietEnv (p : PlexPayload) (resp : Except String Response) (img : Except String Image) :
    Env where
  fa := exactArith
  jsonUnmarshal := fun _ => .ok p
  httpGet := fun _ => resp
  imageDecode := fun _ => img
  pngBytes := fun m => [m.Bounds.Dx.toNat, m.Bounds.Dy.toNat]
  openErr := fun _ => none
  readErr := fun _ => none
  createErr := fun _ => none
  writeErr := fun _ _ => none
  renameErr := fun _ _ => none

/-- Like `quietEnv` with a good download, except that the three
file-system calls on the temporary file may be made to fail. -/
def failingEnv (createFails : Bool) (writeFails : Option Nat) (renameFails : Bool) : Env where
  fa := exactArith
  jsonUnmarshal := fun _ => .error "unused"
  httpGet := fun _ => .ok ⟨200, .ok [80, 78, 71]⟩
  imageDecode := fun _ => .ok (solidImage 4 4 ⟨9, 9, 9, 255⟩)
  pngBytes := fun m => [m.Bounds.Dx.toNat, m.Bounds.Dy.toNat]
  openErr := fun _ => none
  readErr := fun _ => none
  createErr := fun _ => if createFails then some "permission denied" else none
  writeErr := fun _ _ => writeFails.map (fun n => (n, "no space left on device"))
  renameErr := fun _ _ => if renameFails then some "permission denied" else none

/-- A world in which a poster `[1, 2, 3]` is published and the placeholder
asset holds `[7, 7]`; nothing has been called yet. -/
def sampleWorld : World where
  fs := fun path =>
    if path = savePath then some [1, 2, 3]
    else if path = transparent then some [7, 7]
    else none
  trace := []

/-! ## Concurrent publishes

`net/http` runs `handleWebhook` in one goroutine per request, so two runs of
the publish sequence (`os.Create`, the write, `os.Rename`, the last lines of
`fetchPoster` and of `replaceWithTransparent`) may interleave. Here the file
system keeps file identity: a path names a file, and an open handle keeps
referring to its file after the path is truncated or renamed. Each of the
three calls is one atomic step. -/

/-- A file system with file identity. -/
structure Disk where
  /-- The file each existing path names. -/
  dir : String → Option Nat
  /-- The content of each file. -/
  data : Nat → Bytes
  /-- The first unused file number. -/
  next : Nat

/-- What a reader of `path` sees. -/
def Disk.read (d : Disk) (path : String) : Option Bytes :=
  (d.dir path).map d.data

/-- Call `os.Create` (`O_CREATE|O_TRUNC`): an existing file is emptied and
keeps its identity, a missing one is made; returns the file of the handle. -/
def Disk.create (d : Disk) (path : String) : Disk × Nat :=
  match d.dir path with
  | some f => ({ d with data := fun g => if g = f then [] else d.data g }, f)
  | none =>
    ({ dir := fun q => if q = path then some d.next else d.dir q,
       data := fun g => if g = d.next then [] else d.data g,
       next := d.next + 1 }, d.next)

/-- A write of `bytes` through a fresh handle (offset 0) of file `f`: the
bytes replace the start of the file, what lies beyond them stays. -/
def Disk.writeAtStart (d : Disk) (f : Nat) (bytes : Bytes) : Disk :=
  { d with data := fun g => if g = f then bytes ++ (d.data f).drop bytes.length else d.data g }

/-- Call `os.Rename`: `newpath` now names the file of `oldpath`; fails when
`oldpath` names nothing. -/
def Disk.rename (d : Disk) (oldpath newpath : String) : Option Disk :=
  match d.dir oldpath with
  | none => none
  | some f =>
    some { d with dir := fun q => if q = oldpath then none
                                 else if q = newpath then some f else d.dir q }

/-- Where a goroutine stands in its publish sequence. -/
inductive Stage where
  | start
  | created (out : Nat)
  | written (out : Nat)
  | finished (err : Option String)
deriving DecidableEq, Repr

/-- One goroutine publishing `output`: the encoding of `final` for
`fetchPoster`, the bytes of the placeholder for `replaceWithTransparent`. -/
structure Publisher where
  output : Bytes
  stage : Stage
deriving DecidableEq, Repr

/-- The next call of a goroutine: `os.Create(tmpFile)`, then the write to
`out`, then `os.Rename(tmpFile, savePath)`. -/
def Publisher.step (p : Publisher) (d : Disk) : Publisher × Disk :=
  match p.stage with
  | .start =>
    let (d1, out) := d.create tmpFile
    ({ p with stage := .created out }, d1)
  | .created out => ({ p with stage := .written out }, d.writeAtStart out p.output)
  | .written _ =>
    match d.rename tmpFile savePath with
    | none => ({ p with stage := .finished (some "rename: no such file or directory") }, d)
    | some d1 => ({ p with stage := .finished none }, d1)
  | .finished err => ({ p with stage := .finished err }, d)

/-- Let goroutine number `i` make its next call. -/
def stepAt (i : Nat) (ps : List Publisher) (d : Disk) : List Publisher × Disk :=
  match ps[i]? with
  | none => (ps, d)
  | some p => (ps.set i (p.step d).1, (p.step d).2)

/-- Run a schedule (the goroutine to advance at each instant) and list what a
reader of the published path sees after each step. -/
def observations : List Nat → List Publisher → Disk → List (Option Bytes)
  | [], _, _ => []
  | i :: rest, ps, d =>
    (stepAt i ps d).2.read savePath ::
      observations rest (stepAt i ps d).1 (stepAt i ps d).2

/-- A disk on which file 0, holding `prior`, is published and nothing else
exists. -/
def diskWith (prior : Bytes) : Disk where
  dir := fun q => if q = savePath then some 0 else none
  data := fun g => if g = 0 then prior else []
  next := 1

/-! ## Geometry of the compositing step -/

theorem Rect_of_nonneg {w h : Int} (hw : 0 ≤ w) (hh : 0 ≤ h) :
    Rect 0 0 w h = ⟨⟨0, 0⟩, ⟨w, h⟩⟩ := by
  have h1 : ¬ (0 : Int) > w := by omega
  have h2 : ¬ (0 : Int) > h := by omega
  simp [Rect, h1, h2]

theorem New_bounds {W H : Int} (hW : 0 < W) (hH : 0 < H) (c : NRGBA) :
    (imaging.New W H c).Bounds = ⟨⟨0, 0⟩, ⟨W, H⟩⟩ := by
  have h : ¬ (W ≤ 0 ∨ H ≤ 0) := by omega
  simp [imaging.New, h, Rect_of_nonneg (le_of_lt hW) (le_of_lt hH)]

theorem New_At {W H : Int} (hW : 0 < W) (hH : 0 < H) (c : NRGBA) (x y : Int) :
    (imaging.New W H c).At x y = c := by
  have h : ¬ (W ≤ 0 ∨ H ≤ 0) := by omega
  simp [imaging.New, h]

theorem Clone_bounds (img : Image) (hx : 0 ≤ img.Bounds.Dx) (hy : 0 ≤ img.Bounds.Dy) :
    (imaging.Clone img).Bounds = ⟨⟨0, 0⟩, ⟨img.Bounds.Dx, img.Bounds.Dy⟩⟩ := by
  simp [imaging.Clone, Rect_of_nonneg hx hy]

theorem Paste_bounds (background img : Image) (pos : Point) :
    (imaging.Paste background img pos).Bounds = (imaging.Clone background).Bounds := by
  unfold imaging.Paste
  by_cases h : (imaging.interRect background img pos).Empty = true <;> simp [h]

theorem canvas_bounds (cfg : Config) (hW : 0 < cfg.canvasWidth) (hH : 0 < cfg.canvasHeight) :
    (canvasImage cfg).Bounds = ⟨⟨0, 0⟩, ⟨cfg.canvasWidth, cfg.canvasHeight⟩⟩ :=
  New_bounds hW hH _

theorem finalImage_bounds (cfg : Config) (fa : FloatArith) (srcImage : Image)
    (hW : 0 < cfg.canvasWidth) (hH : 0 < cfg.canvasHeight) :
    (finalImage cfg fa srcImage).Bounds = ⟨⟨0, 0⟩, ⟨cfg.canvasWidth, cfg.canvasHeight⟩⟩ := by
  unfold finalImage imaging.PasteCenter
  rw [Paste_bounds]
  have hb := canvas_bounds cfg hW hH
  have hx : 0 ≤ (canvasImage cfg).Bounds.Dx := by simp [hb, Rectangle.Dx]; omega
  have hy : 0 ≤ (canvasImage cfg).Bounds.Dy := by simp [hb, Rectangle.Dy]; omega
  rw [Clone_bounds _ hx hy]
  simp [hb, Rectangle.Dx, Rectangle.Dy]

theorem Fit_of_degenerate (fa : FloatArith) (img : Image) (W H : Int)
    (hdeg : img.Bounds.Dx ≤ 0 ∨ img.Bounds.Dy ≤ 0) :
    imaging.Fit fa img W H = imaging.emptyNRGBA := by
  unfold imaging.Fit
  by_cases h1 : W ≤ 0 ∨ H ≤ 0
  · simp [h1]
  · simp [h1, hdeg]

/-- Pasting the empty image changes nothing: the result is the copy of the
background. -/
theorem Paste_emptyNRGBA (background : Image) (pos : Point) :
    imaging.Paste background imaging.emptyNRGBA pos = imaging.Clone background := by
  have key : ∀ r1 : Rectangle, r1.Min.X ≥ r1.Max.X →
      (if r1.Empty then ZR else r1).Empty = true := by
    intro r1 h
    have h1 : r1.Empty = true := by simp [Rectangle.Empty, h]
    rw [if_pos h1]
    decide
  have hir : (imaging.interRect background imaging.emptyNRGBA pos).Empty = true := by
    simp only [imaging.interRect, imaging.pasteRect, imaging.emptyNRGBA, ZR, Rectangle.Size,
      Rectangle.Dx, Rectangle.Dy, Point.Add, Point.Sub, Rectangle.Intersect, sub_self, add_zero]
    generalize pos.X - background.Bounds.Min.X = l
    generalize pos.Y - background.Bounds.Min.Y = t
    apply key
    dsimp only
    split <;> split <;> omega
  simp [imaging.Paste, hir]

theorem finalImage_of_degenerate (cfg : Config) (fa : FloatArith) (srcImage : Image)
    (hdeg : srcImage.Bounds.Dx ≤ 0 ∨ srcImage.Bounds.Dy ≤ 0) :
    finalImage cfg fa srcImage = imaging.Clone (canvasImage cfg) := by
  unfold finalImage resizedImage imaging.PasteCenter
  rw [Fit_of_degenerate fa srcImage _ _ hdeg, Paste_emptyNRGBA]

/-- C4: for every source image of positive width and height and every
positive canvas size `W` by `H`, the image `final` that `fetchPoster`
composites with `Fit`, `New` and `PasteCenter` and then encodes has bounds
`(0,0)-(W,H)`, that is exactly `W` by `H` pixels, whatever the size and aspect
ratio of the source and whatever the resizer computes. -/
theorem final_image_has_canvas_size (cfg : Config) (fa : FloatArith) (srcImage : Image)
    (hsw : 0 < srcImage.Bounds.Dx) (hsh : 0 < srcImage.Bounds.Dy)
    (hW : 0 < cfg.canvasWidth) (hH : 0 < cfg.canvasHeight) :
    (finalImage cfg fa srcImage).Bounds = ⟨⟨0, 0⟩, ⟨cfg.canvasWidth, cfg.canvasHeight⟩⟩ ∧
    (finalImage cfg fa srcImage).Bounds.Dx = cfg.canvasWidth ∧
    (finalImage cfg fa srcImage).Bounds.Dy = cfg.canvasHeight := by
  have _hs := And.intro hsw hsh
  have hb := finalImage_bounds cfg fa srcImage hW hH
  refine ⟨hb, ?_, ?_⟩
  · rw [hb]; simp [Rectangle.Dx]
  · rw [hb]; simp [Rectangle.Dy]

/-- Witness for C4: a 3000 by 500 source on the default 1080 by 1920 canvas. -/
theorem final_image_has_canvas_size_witness :
    (0 < (solidImage 3000 500 ⟨9, 9, 9, 255⟩).Bounds.Dx ∧
     0 < (solidImage 3000 500 ⟨9, 9, 9, 255⟩).Bounds.Dy ∧
     0 < defaultConfig.canvasWidth ∧ 0 < defaultConfig.canvasHeight) ∧
    (finalImage defaultConfig exactArith (solidImage 3000 500 ⟨9, 9, 9, 255⟩)).Bounds.Dx = 1080 ∧
    (finalImage defaultConfig exactArith (solidImage 3000 500 ⟨9, 9, 9, 255⟩)).Bounds.Dy = 1920 :=
  ⟨by decide,
   (final_image_has_canvas_size defaultConfig exactArith (solidImage 3000 500 ⟨9, 9, 9, 255⟩)
      (by decide) (by decide) (by decide) (by decide)).2⟩

theorem tmpFile_ne_savePath : tmpFile ≠ savePath := by decide

theorem savePath_ne_tmpFile : savePath ≠ tmpFile := by decide

theorem transparent_ne_tmpFile : transparent ≠ tmpFile := by decide

theorem transparent_ne_savePath : transparent ≠ savePath := by decide

theorem emit_fs (w : World) (e : Effect) : (w.emit e).fs = w.fs := rfl

theorem emit_trace (w : World) (e : Effect) : (w.emit e).trace = w.trace ++ [e] := rfl

theorem setFile_trace (w : World) (path : String) (c : Option Bytes) :
    (w.setFile path c).trace = w.trace := rfl

theorem setFile_fs_same (w : World) (path : String) (c : Option Bytes) :
    (w.setFile path c).fs path = c := by
  simp [World.setFile]

theorem setFile_fs_ne (w : World) {path q : String} (c : Option Bytes) (h : q ≠ path) :
    (w.setFile path c).fs q = w.fs q := by
  simp [World.setFile, h]

/-- The three steps on the temporary file never touch the published path
unless the rename succeeds. -/
theorem osCreate_tmp_keeps (env : Env) (w : World) :
    (osCreate env tmpFile w).2.fs savePath = w.fs savePath := by
  unfold osCreate
  cases env.createErr tmpFile <;>
    simp [emit_fs, setFile_fs_ne _ _ savePath_ne_tmpFile]

theorem writeFile_tmp_keeps (env : Env) (data : Bytes) (w : World) :
    (writeFile env tmpFile data w).2.fs savePath = w.fs savePath := by
  unfold writeFile
  cases env.writeErr tmpFile data <;>
    simp [emit_fs, setFile_fs_ne _ _ savePath_ne_tmpFile]

theorem pngEncode_tmp_keeps (env : Env) (m : Image) (w : World) :
    (pngEncode env tmpFile m w).2.fs savePath = w.fs savePath := by
  unfold pngEncode
  split
  · rfl
  · exact writeFile_tmp_keeps env _ w

theorem ioCopy_tmp_keeps (env : Env) (src : String) (w : World) :
    (ioCopy env tmpFile src w).2.fs savePath = w.fs savePath := by
  unfold ioCopy
  cases hr : env.readErr src with
  | none => exact writeFile_tmp_keeps env _ w
  | some ne =>
    have hk := writeFile_tmp_keeps env (List.take ne.1 ((w.fs src).getD [])) w
    simp only
    split <;> rename_i h <;> rw [h] at hk <;> exact hk

theorem osOpen_keeps (env : Env) (path : String) (w : World) :
    (osOpen env path w).2.fs = w.fs := by
  unfold osOpen
  cases env.openErr path <;> cases w.fs path <;> simp [emit_fs]

theorem osRename_err_keeps (env : Env) (oldpath newpath : String) (w : World)
    (h : (osRename env oldpath newpath w).1 ≠ none) :
    (osRename env oldpath newpath w).2.fs = w.fs := by
  unfold osRename at h ⊢
  cases hr : env.renameErr oldpath newpath <;> cases hf : w.fs oldpath <;>
    simp_all [emit_fs]

/-! ## Runs of `fetchPoster` and `replaceWithTransparent` -/

/-- A run of `fetchPoster` that stops before the file-system stage. -/
theorem fetchPoster_of_fetch_failure (cfg : Config) (env : Env) (thumb : String) (w : World)
    (hfail : (∃ e, env.httpGet (cfg.plexHost ++ thumb ++ "?X-Plex-Token=" ++ cfg.plexToken)
                = .error e) ∨
      (∃ resp e, env.httpGet (cfg.plexHost ++ thumb ++ "?X-Plex-Token=" ++ cfg.plexToken)
                = .ok resp ∧ resp.Body = .error e) ∨
      (∃ resp data e, env.httpGet (cfg.plexHost ++ thumb ++ "?X-Plex-Token=" ++ cfg.plexToken)
                = .ok resp ∧ resp.Body = .ok data ∧ env.imageDecode data = .error e)) :
    ∃ e, fetchPoster cfg env thumb w =
      (some e, w.emit (.httpGet (cfg.plexHost ++ thumb ++ "?X-Plex-Token=" ++ cfg.plexToken))) := by
  rcases hfail with ⟨e, h⟩ | ⟨resp, e, h1, h2⟩ | ⟨resp, data, e, h1, h2, h3⟩
  · exact ⟨e, by simp [emit_fs, emit_trace, setFile_trace, setFile_fs_same, fetchPoster, h]⟩
  · exact ⟨e, by simp [emit_fs, emit_trace, setFile_trace, setFile_fs_same, fetchPoster, h1, h2]⟩
  · exact ⟨e, by simp [emit_fs, emit_trace, setFile_trace, setFile_fs_same,
      fetchPoster, h1, h2, h3]⟩

/-- The file-system stage of `fetchPoster`, reached after a good download. -/
theorem fetchPoster_of_decoded (cfg : Config) (env : Env) (thumb : String) (w : World)
    (resp : Response) (imgData : Bytes) (srcImage : Image)
    (hget : env.httpGet (cfg.plexHost ++ thumb ++ "?X-Plex-Token=" ++ cfg.plexToken) = .ok resp)
    (hbody : resp.Body = .ok imgData) (hdec : env.imageDecode imgData = .ok srcImage) :
    fetchPoster cfg env thumb w =
      match osCreate env tmpFile
          (w.emit (.httpGet (cfg.plexHost ++ thumb ++ "?X-Plex-Token=" ++ cfg.plexToken))) with
      | (some err, w2) => (some err, w2)
      | (none, w2) =>
        match pngEncode env tmpFile (finalImage cfg env.fa srcImage) w2 with
        | (some err, w3) => (some err, w3)
        | (none, w3) => osRename env tmpFile savePath w3 := by
  simp [emit_fs, emit_trace, setFile_trace, setFile_fs_same, fetchPoster, hget, hbody, hdec]

/-- Whenever `fetchPoster` returns an error, the published path holds what it
held before. -/
theorem fetchPoster_err_keeps (cfg : Config) (env : Env) (thumb : String) (w : World)
    (herr : (fetchPoster cfg env thumb w).1 ≠ none) :
    (fetchPoster cfg env thumb w).2.fs savePath = w.fs savePath := by
  cases hget : env.httpGet (cfg.plexHost ++ thumb ++ "?X-Plex-Token=" ++ cfg.plexToken) with
  | error e => simp [emit_fs, emit_trace, setFile_trace, setFile_fs_same, fetchPoster, hget]
  | ok resp =>
    cases hbody : resp.Body with
    | error e => simp [emit_fs, emit_trace, setFile_trace, setFile_fs_same,
        fetchPoster, hget, hbody]
    | ok imgData =>
      cases hdec : env.imageDecode imgData with
      | error e => simp [emit_fs, emit_trace, setFile_trace, setFile_fs_same,
          fetchPoster, hget, hbody, hdec]
      | ok srcImage =>
        rw [fetchPoster_of_decoded cfg env thumb w resp imgData srcImage hget hbody hdec]
          at herr ⊢
        generalize hw1 :
          w.emit (.httpGet (cfg.plexHost ++ thumb ++ "?X-Plex-Token=" ++ cfg.plexToken))
            = w1 at herr ⊢
        have hfs1 : w1.fs savePath = w.fs savePath := by rw [← hw1]; rfl
        have hc := osCreate_tmp_keeps env w1
        rcases hcr : osCreate env tmpFile w1 with ⟨_ | e, w2⟩
        · rw [hcr] at hc herr
          dsimp only at hc herr ⊢
          have he := pngEncode_tmp_keeps env (finalImage cfg env.fa srcImage) w2
          rcases hen : pngEncode env tmpFile (finalImage cfg env.fa srcImage) w2 with ⟨_ | e, w3⟩
          · rw [hen] at he herr
            dsimp only at he herr ⊢
            rw [osRename_err_keeps env tmpFile savePath w3 herr, he, hc, hfs1]
          · rw [hen] at he
            dsimp only at he ⊢
            rw [he, hc, hfs1]
        · rw [hcr] at hc
          dsimp only at hc ⊢
          rw [hc, hfs1]

/-- Whenever `replaceWithTransparent` returns an error, the published path
holds what it held before. -/
theorem replaceWithTransparent_err_keeps (env : Env) (w : World)
    (herr : (replaceWithTransparent env w).1 ≠ none) :
    (replaceWithTransparent env w).2.fs savePath = w.fs savePath := by
  unfold replaceWithTransparent at herr ⊢
  have ho := osOpen_keeps env transparent w
  rcases hop : osOpen env transparent w with ⟨_ | e, w1⟩
  · rw [hop] at ho herr
    dsimp only at ho herr ⊢
    have hc := osCreate_tmp_keeps env w1
    rcases hcr : osCreate env tmpFile w1 with ⟨_ | e, w2⟩
    · rw [hcr] at hc herr
      dsimp only at hc herr ⊢
      have he := ioCopy_tmp_keeps env transparent w2
      rcases hen : ioCopy env tmpFile transparent w2 with ⟨_ | e, w3⟩
      · rw [hen] at he herr
        dsimp only at he herr ⊢
        rw [osRename_err_keeps env tmpFile savePath w3 herr, he, hc, ho]
      · rw [hen] at he
        dsimp only at he ⊢
        rw [he, hc, ho]
    · rw [hcr] at hc
      dsimp only at hc ⊢
      rw [hc, ho]
  · rw [hop] at ho
    dsimp only at ho ⊢
    rw [ho]

/-! ## Which calls a run makes -/

theorem osOpen_fetches (env : Env) (path : String) (w : World) :
    (osOpen env path w).2.trace.filter Effect.isFetch = w.trace.filter Effect.isFetch := by
  unfold osOpen
  cases env.openErr path <;> cases w.fs path <;> simp [emit_fs, emit_trace, setFile_trace, setFile_fs_same,
      Effect.isFetch]

theorem osCreate_fetches (env : Env) (path : String) (w : World) :
    (osCreate env path w).2.trace.filter Effect.isFetch = w.trace.filter Effect.isFetch := by
  unfold osCreate
  cases env.createErr path <;> simp [emit_fs, emit_trace, setFile_trace, setFile_fs_same,
      Effect.isFetch]

theorem writeFile_fetches (env : Env) (path : String) (data : Bytes) (w : World) :
    (writeFile env path data w).2.trace.filter Effect.isFetch
      = w.trace.filter Effect.isFetch := by
  unfold writeFile
  cases env.writeErr path data <;> simp [emit_fs, emit_trace, setFile_trace, setFile_fs_same,
      Effect.isFetch]

theorem pngEncode_fetches (env : Env) (path : String) (m : Image) (w : World) :
    (pngEncode env path m w).2.trace.filter Effect.isFetch = w.trace.filter Effect.isFetch := by
  unfold pngEncode
  split
  · rfl
  · exact writeFile_fetches env path _ w

theorem ioCopy_fetches (env : Env) (dst src : String) (w : World) :
    (ioCopy env dst src w).2.trace.filter Effect.isFetch = w.trace.filter Effect.isFetch := by
  unfold ioCopy
  cases hr : env.readErr src with
  | none => exact writeFile_fetches env dst _ w
  | some ne =>
    have hk := writeFile_fetches env dst (List.take ne.1 ((w.fs src).getD [])) w
    simp only
    split <;> rename_i h <;> rw [h] at hk <;> exact hk

theorem osRename_fetches (env : Env) (oldpath newpath : String) (w : World) :
    (osRename env oldpath newpath w).2.trace.filter Effect.isFetch
      = w.trace.filter Effect.isFetch := by
  unfold osRename
  cases env.renameErr oldpath newpath <;> cases w.fs oldpath <;> simp [emit_fs, emit_trace, setFile_trace, setFile_fs_same,
      Effect.isFetch]

theorem logIfErr_fetches (msg : String) (res : Option String × World) :
    (logIfErr msg res).trace.filter Effect.isFetch = res.2.trace.filter Effect.isFetch := by
  rcases res with ⟨_ | e, w⟩ <;> simp [emit_fs, emit_trace, setFile_trace, setFile_fs_same,
      logIfErr, Effect.isFetch]

theorem logIfErr_of_ok (msg : String) (res : Option String × World) (h : res.1 = none) :
    logIfErr msg res = res.2 := by
  rcases res with ⟨_ | e, w⟩
  · rfl
  · simp at h

theorem logIfErr_of_err (msg : String) (res : Option String × World) (e : String)
    (h : res.1 = some e) : logIfErr msg res = res.2.emit (.log (msg ++ " " ++ e)) := by
  rcases res with ⟨_ | e1, w⟩
  · simp at h
  · simp only [Option.some.injEq] at h
    subst h
    rfl

/-- A run of `fetchPoster` issues exactly one `http.Get`, for the URL built
from its argument. -/
theorem fetchPoster_fetches (cfg : Config) (env : Env) (thumb : String) (w : World) :
    (fetchPoster cfg env thumb w).2.trace.filter Effect.isFetch =
      w.trace.filter Effect.isFetch ++
        [.httpGet (cfg.plexHost ++ thumb ++ "?X-Plex-Token=" ++ cfg.plexToken)] := by
  cases hget : env.httpGet (cfg.plexHost ++ thumb ++ "?X-Plex-Token=" ++ cfg.plexToken) with
  | error e => simp [emit_fs, emit_trace, setFile_trace, setFile_fs_same,
      fetchPoster, hget, Effect.isFetch]
  | ok resp =>
    cases hbody : resp.Body with
    | error e => simp [emit_fs, emit_trace, setFile_trace, setFile_fs_same,
        fetchPoster, hget, hbody, Effect.isFetch]
    | ok imgData =>
      cases hdec : env.imageDecode imgData with
      | error e => simp [emit_fs, emit_trace, setFile_trace, setFile_fs_same,
          fetchPoster, hget, hbody, hdec, Effect.isFetch]
      | ok srcImage =>
        rw [fetchPoster_of_decoded cfg env thumb w resp imgData srcImage hget hbody hdec]
        generalize hw1 :
          w.emit (.httpGet (cfg.plexHost ++ thumb ++ "?X-Plex-Token=" ++ cfg.plexToken)) = w1
        have hfs1 : w1.trace.filter Effect.isFetch = w.trace.filter Effect.isFetch ++
            [.httpGet (cfg.plexHost ++ thumb ++ "?X-Plex-Token=" ++ cfg.plexToken)] := by
          rw [← hw1]; simp [emit_fs, emit_trace, setFile_trace, setFile_fs_same, Effect.isFetch]
        have hc := osCreate_fetches env tmpFile w1
        rcases hcr : osCreate env tmpFile w1 with ⟨_ | e, w2⟩
        · rw [hcr] at hc
          dsimp only at hc ⊢
          have he := pngEncode_fetches env tmpFile (finalImage cfg env.fa srcImage) w2
          rcases hen : pngEncode env tmpFile (finalImage cfg env.fa srcImage) w2 with ⟨_ | e, w3⟩
          · rw [hen] at he
            dsimp only at he ⊢
            rw [osRename_fetches, he, hc, hfs1]
          · rw [hen] at he
            dsimp only at he ⊢
            rw [he, hc, hfs1]
        · rw [hcr] at hc
          dsimp only at hc ⊢
          rw [hc, hfs1]

/-- A run of `replaceWithTransparent` issues no `http.Get`. -/
theorem replaceWithTransparent_fetches (env : Env) (w : World) :
    (replaceWithTransparent env w).2.trace.filter Effect.isFetch
      = w.trace.filter Effect.isFetch := by
  unfold replaceWithTransparent
  have ho := osOpen_fetches env transparent w
  rcases hop : osOpen env transparent w with ⟨_ | e, w1⟩
  · rw [hop] at ho
    dsimp only at ho ⊢
    have hc := osCreate_fetches env tmpFile w1
    rcases hcr : osCreate env tmpFile w1 with ⟨_ | e, w2⟩
    · rw [hcr] at hc
      dsimp only at hc ⊢
      have he := ioCopy_fetches env tmpFile transparent w2
      rcases hen : ioCopy env tmpFile transparent w2 with ⟨_ | e, w3⟩
      · rw [hen] at he
        dsimp only at he ⊢
        rw [osRename_fetches, he, hc, ho]
      · rw [hen] at he
        dsimp only at he ⊢
        rw [he, hc, ho]
    · rw [hcr] at hc
      dsimp only at hc ⊢
      rw [hc, ho]
  · rw [hop] at ho
    dsimp only at ho ⊢
    rw [ho]

/-- The successful run of `replaceWithTransparent`. -/
theorem replaceWithTransparent_ok (env : Env) (w : World) (c : Bytes)
    (hopen : env.openErr transparent = none) (hthere : w.fs transparent = some c)
    (hread : env.readErr transparent = none) (hcreate : env.createErr tmpFile = none)
    (hwrite : env.writeErr tmpFile c = none) (hrename : env.renameErr tmpFile savePath = none) :
    (replaceWithTransparent env w).1 = none ∧
    (replaceWithTransparent env w).2.fs savePath = some c ∧
    (replaceWithTransparent env w).2.fs transparent = some c ∧
    (replaceWithTransparent env w).2.trace = w.trace ++
      [.openFile transparent, .create tmpFile, .write tmpFile c, .rename tmpFile savePath] := by
  have h1 : tmpFile ≠ savePath := tmpFile_ne_savePath
  have h2 : transparent ≠ tmpFile := transparent_ne_tmpFile
  have h3 : transparent ≠ savePath := transparent_ne_savePath
  simp [emit_fs, emit_trace, setFile_trace, setFile_fs_same,
      replaceWithTransparent, osOpen, osCreate, ioCopy, writeFile, osRename, World.setFile,
    World.emit, hopen, hthere, hread, hcreate, hwrite, hrename, h1, h2, h3, h1.symm]

/-- The successful run of the file-system stage of `fetchPoster`. -/
theorem fetchPoster_ok (cfg : Config) (env : Env) (thumb : String) (w : World)
    (resp : Response) (imgData : Bytes) (srcImage : Image)
    (hget : env.httpGet (cfg.plexHost ++ thumb ++ "?X-Plex-Token=" ++ cfg.plexToken) = .ok resp)
    (hbody : resp.Body = .ok imgData) (hdec : env.imageDecode imgData = .ok srcImage)
    (hW : 0 < cfg.canvasWidth) (hH : 0 < cfg.canvasHeight)
    (hW32 : cfg.canvasWidth < 2 ^ 32) (hH32 : cfg.canvasHeight < 2 ^ 32)
    (hcreate : env.createErr tmpFile = none)
    (hwrite : env.writeErr tmpFile (env.pngBytes (finalImage cfg env.fa srcImage)) = none)
    (hrename : env.renameErr tmpFile savePath = none) :
    (fetchPoster cfg env thumb w).1 = none ∧
    (fetchPoster cfg env thumb w).2.fs savePath
      = some (env.pngBytes (finalImage cfg env.fa srcImage)) ∧
    (fetchPoster cfg env thumb w).2.trace = w.trace ++
      [.httpGet (cfg.plexHost ++ thumb ++ "?X-Plex-Token=" ++ cfg.plexToken), .create tmpFile,
       .write tmpFile (env.pngBytes (finalImage cfg env.fa srcImage)),
       .rename tmpFile savePath] := by
  have h1 : tmpFile ≠ savePath := tmpFile_ne_savePath
  have hb := finalImage_bounds cfg env.fa srcImage hW hH
  have hsz : ¬ ((finalImage cfg env.fa srcImage).Bounds.Dx ≤ 0 ∨
      (finalImage cfg env.fa srcImage).Bounds.Dy ≤ 0 ∨
      (finalImage cfg env.fa srcImage).Bounds.Dx ≥ 2 ^ 32 ∨
      (finalImage cfg env.fa srcImage).Bounds.Dy ≥ 2 ^ 32) := by
    rw [hb]
    simp only [Rectangle.Dx, Rectangle.Dy]
    omega
  have hpe : ∀ w2, pngEncode env tmpFile (finalImage cfg env.fa srcImage) w2 =
      writeFile env tmpFile (env.pngBytes (finalImage cfg env.fa srcImage)) w2 := by
    intro w2
    unfold pngEncode
    rw [if_neg hsz]
  rw [fetchPoster_of_decoded cfg env thumb w resp imgData srcImage hget hbody hdec]
  simp [emit_fs, emit_trace, setFile_trace, setFile_fs_same,
      osCreate, hpe, writeFile, osRename, World.setFile, World.emit, hcreate,
    hwrite, hrename, h1, h1.symm]

/-- What `handleWebhook` does with a play or resume notification of a
displayed media kind. -/
theorem handleWebhook_of_play (cfg : Config) (env : Env) (r : Request) (w : World)
    (p : PlexPayload) (hparse : r.parseErr = none) (hpay : r.payload ≠ "")
    (hjson : env.jsonUnmarshal r.payload = .ok p)
    (hkind : p.Metadata.Type_ = "movie" ∨ p.Metadata.Type_ = "episode")
    (hev : p.Event = "media.play" ∨ p.Event = "media.resume")
    (ref : String) (href : thumbPath p = ref) :
    handleWebhook cfg env r w =
      (logIfErr "Error fetching poster:"
        (fetchPoster cfg env ref
          (w.emit (.log ("Now playing: " ++ p.Metadata.Title ++ " (" ++ p.Metadata.Type_
            ++ ")"))))).emit (.writeHeader 200) ∧
    (handleWebhook cfg env r w).trace.filter Effect.isFetch =
      w.trace.filter Effect.isFetch ++
        [.httpGet (cfg.plexHost ++ ref ++ "?X-Plex-Token=" ++ cfg.plexToken)] := by
  have hk : ¬ (p.Metadata.Type_ ≠ "movie" ∧ p.Metadata.Type_ ≠ "episode") := by
    rcases hkind with h | h <;> simp [emit_fs, emit_trace, setFile_trace, setFile_fs_same, h]
  have heq : handleWebhook cfg env r w =
      (logIfErr "Error fetching poster:"
        (fetchPoster cfg env ref
          (w.emit (.log ("Now playing: " ++ p.Metadata.Title ++ " (" ++ p.Metadata.Type_
            ++ ")"))))).emit (.writeHeader 200) := by
    unfold handleWebhook
    simp only [hparse, hpay, hjson, if_false, if_neg hk, if_pos hev, href]
  refine ⟨heq, ?_⟩
  rw [heq]
  simp only [emit_trace, List.filter_append, logIfErr_fetches, fetchPoster_fetches]
  simp [emit_fs, emit_trace, setFile_trace, setFile_fs_same, Effect.isFetch]

/-! ## Classification of notifications (claims C1, C2, C3) -/

/-- C1: for every decoded notification whose media kind is neither "movie"
nor "episode" (whatever its event kind and artwork references), and for every
notification whose event kind is none of media.play, media.resume and
media.stop, `handleWebhook` leaves the file system as it was and makes no call
except one log line "Ignoring ..." (followed, in the second case, by the 200
status): no `http.Get`, no file operation, no error report. -/
theorem ignored_notification_is_inert (cfg : Config) (env : Env) (r : Request) (w : World)
    (p : PlexPayload) (hparse : r.parseErr = none) (hpay : r.payload ≠ "")
    (hjson : env.jsonUnmarshal r.payload = .ok p)
    (hign : (p.Metadata.Type_ ≠ "movie" ∧ p.Metadata.Type_ ≠ "episode") ∨
      (p.Event ≠ "media.play" ∧ p.Event ≠ "media.resume" ∧ p.Event ≠ "media.stop")) :
    (handleWebhook cfg env r w).fs = w.fs ∧
    ((handleWebhook cfg env r w).trace =
        w.trace ++ [.log ("Ignoring media type: " ++ p.Metadata.Type_)] ∨
     (handleWebhook cfg env r w).trace =
        w.trace ++ [.log ("Ignoring event: " ++ p.Event), .writeHeader 200]) ∧
    (handleWebhook cfg env r w).trace.filter Effect.isFetch = w.trace.filter Effect.isFetch ∧
    (handleWebhook cfg env r w).trace.filter Effect.isFileOp
      = w.trace.filter Effect.isFileOp := by
  by_cases hk : p.Metadata.Type_ ≠ "movie" ∧ p.Metadata.Type_ ≠ "episode"
  · simp [emit_fs, emit_trace, setFile_trace, setFile_fs_same,
      handleWebhook, hparse, hpay, hjson, hk, Effect.isFetch, Effect.isFileOp]
  · rcases hign with h | ⟨h1, h2, h3⟩
    · exact absurd h hk
    · have hk2 : ¬ (¬ p.Metadata.Type_ = "movie" ∧ ¬ p.Metadata.Type_ = "episode") := hk
      simp [emit_fs, emit_trace, setFile_trace, setFile_fs_same,
          handleWebhook, hparse, hpay, hjson, hk2, h1, h2, h3, Effect.isFetch,
        Effect.isFileOp]

/-- Witness for C1: a "track" that starts playing (scenario D). -/
theorem ignored_notification_is_inert_witness :
    ((sampleRequest "payload").parseErr = none ∧ (sampleRequest "payload").payload ≠ "" ∧
     ((samplePayload "media.play" "track" "/t/1" "/t/2").Metadata.Type_ ≠ "movie" ∧
      (samplePayload "media.play" "track" "/t/1" "/t/2").Metadata.Type_ ≠ "episode")) ∧
    (handleWebhook defaultConfig
        (quietEnv (samplePayload "media.play" "track" "/t/1" "/t/2") (.error "down")
          (.error "none"))
        (sampleRequest "payload") sampleWorld).fs = sampleWorld.fs :=
  ⟨by decide,
   (ignored_notification_is_inert defaultConfig
      (quietEnv (samplePayload "media.play" "track" "/t/1" "/t/2") (.error "down")
        (.error "none"))
      (sampleRequest "payload") sampleWorld (samplePayload "media.play" "track" "/t/1" "/t/2")
      rfl (by decide) rfl (Or.inl (by decide))).1⟩

/-- C2: for every notification of media kind movie or episode and event kind
media.play or media.resume, `handleWebhook` hands to `fetchPoster` the
fallback reference `grandparentThumb` when the kind is episode and the
fallback is non-empty, and the primary reference `thumb` otherwise; the one
`http.Get` of the run is for that reference. In particular a movie uses the
primary reference even when its fallback is non-empty. -/
theorem play_fetches_chosen_reference (cfg : Config) (env : Env) (r : Request) (w : World)
    (p : PlexPayload) (hparse : r.parseErr = none) (hpay : r.payload ≠ "")
    (hjson : env.jsonUnmarshal r.payload = .ok p)
    (hkind : p.Metadata.Type_ = "movie" ∨ p.Metadata.Type_ = "episode")
    (hev : p.Event = "media.play" ∨ p.Event = "media.resume") :
    (p.Metadata.Type_ = "episode" ∧ p.Metadata.GrandparentThumb ≠ "" →
      handleWebhook cfg env r w =
        (logIfErr "Error fetching poster:"
          (fetchPoster cfg env p.Metadata.GrandparentThumb
            (w.emit (.log ("Now playing: " ++ p.Metadata.Title ++ " (" ++ p.Metadata.Type_
              ++ ")"))))).emit (.writeHeader 200) ∧
      (handleWebhook cfg env r w).trace.filter Effect.isFetch =
        w.trace.filter Effect.isFetch ++
          [.httpGet (cfg.plexHost ++ p.Metadata.GrandparentThumb ++ "?X-Plex-Token=" ++
            cfg.plexToken)]) ∧
    (¬ (p.Metadata.Type_ = "episode" ∧ p.Metadata.GrandparentThumb ≠ "") →
      handleWebhook cfg env r w =
        (logIfErr "Error fetching poster:"
          (fetchPoster cfg env p.Metadata.Thumb
            (w.emit (.log ("Now playing: " ++ p.Metadata.Title ++ " (" ++ p.Metadata.Type_
              ++ ")"))))).emit (.writeHeader 200) ∧
      (handleWebhook cfg env r w).trace.filter Effect.isFetch =
        w.trace.filter Effect.isFetch ++
          [.httpGet (cfg.plexHost ++ p.Metadata.Thumb ++ "?X-Plex-Token=" ++ cfg.plexToken)]) ∧
    (p.Metadata.Type_ = "movie" →
      (handleWebhook cfg env r w).trace.filter Effect.isFetch =
        w.trace.filter Effect.isFetch ++
          [.httpGet (cfg.plexHost ++ p.Metadata.Thumb ++ "?X-Plex-Token=" ++ cfg.plexToken)]) := by
  have hmain := handleWebhook_of_play cfg env r w p hparse hpay hjson hkind hev
  refine ⟨fun h => hmain _ (by simp [emit_fs, emit_trace, setFile_trace, setFile_fs_same,
      thumbPath, h]), fun h => hmain _ (by simp [emit_fs, emit_trace, setFile_trace,
      setFile_fs_same, thumbPath, h]),
    fun h => (hmain _ ?_).2⟩
  have hne : ¬ (p.Metadata.Type_ = "episode") := by rw [h]; decide
  simp [emit_fs, emit_trace, setFile_trace, setFile_fs_same, thumbPath, hne]

/-- Witness for C2: scenario B, an episode with both references. -/
theorem play_fetches_chosen_reference_witness :
    ((sampleRequest "payload").parseErr = none ∧ (sampleRequest "payload").payload ≠ "" ∧
     ((samplePayload "media.play" "episode" "/ep/5/thumb" "/show/2/thumb").Metadata.Type_
        = "episode" ∧
      (samplePayload "media.play" "episode" "/ep/5/thumb" "/show/2/thumb").Metadata.GrandparentThumb
        ≠ "")) ∧
    (handleWebhook defaultConfig
        (quietEnv (samplePayload "media.play" "episode" "/ep/5/thumb" "/show/2/thumb")
          (.error "down") (.error "none"))
        (sampleRequest "payload") sampleWorld).trace.filter Effect.isFetch =
      sampleWorld.trace.filter Effect.isFetch ++
        [.httpGet (defaultConfig.plexHost ++ "/show/2/thumb" ++ "?X-Plex-Token=" ++
          defaultConfig.plexToken)] :=
  ⟨by decide,
   ((play_fetches_chosen_reference defaultConfig
      (quietEnv (samplePayload "media.play" "episode" "/ep/5/thumb" "/show/2/thumb")
        (.error "down") (.error "none"))
      (sampleRequest "payload") sampleWorld
      (samplePayload "media.play" "episode" "/ep/5/thumb" "/show/2/thumb")
      rfl (by decide) rfl (Or.inr rfl) (Or.inl rfl)).1 (by decide)).2⟩

/-- C3: for every notification of media kind movie or episode and event kind
media.stop, whatever its artwork references, `handleWebhook` issues no
`http.Get` and runs `replaceWithTransparent`; when the placeholder can be
opened and read and creating, writing and renaming the temporary file all
succeed, the published file afterwards holds exactly the bytes of the
placeholder asset, and no error is logged. -/
theorem stop_publishes_placeholder (cfg : Config) (env : Env) (r : Request) (w : World)
    (p : PlexPayload) (hparse : r.parseErr = none) (hpay : r.payload ≠ "")
    (hjson : env.jsonUnmarshal r.payload = .ok p)
    (hkind : p.Metadata.Type_ = "movie" ∨ p.Metadata.Type_ = "episode")
    (hev : p.Event = "media.stop") :
    handleWebhook cfg env r w =
      (logIfErr "Error showing transparent image:"
        (replaceWithTransparent env (w.emit (.log "Media stopped — hiding poster")))).emit
          (.writeHeader 200) ∧
    (handleWebhook cfg env r w).trace.filter Effect.isFetch = w.trace.filter Effect.isFetch ∧
    (∀ c : Bytes, env.openErr transparent = none → w.fs transparent = some c →
      env.readErr transparent = none → env.createErr tmpFile = none →
      env.writeErr tmpFile c = none → env.renameErr tmpFile savePath = none →
      (handleWebhook cfg env r w).fs savePath = some c ∧
      (handleWebhook cfg env r w).fs transparent = some c ∧
      (handleWebhook cfg env r w).trace = w.trace ++
        [.log "Media stopped — hiding poster", .openFile transparent, .create tmpFile,
         .write tmpFile c, .rename tmpFile savePath, .writeHeader 200]) := by
  have hk : ¬ (p.Metadata.Type_ ≠ "movie" ∧ p.Metadata.Type_ ≠ "episode") := by
    rcases hkind with h | h <;> simp [emit_fs, emit_trace, setFile_trace, setFile_fs_same, h]
  have hnp : ¬ (p.Event = "media.play" ∨ p.Event = "media.resume") := by
    rw [hev]; decide
  have heq : handleWebhook cfg env r w =
      (logIfErr "Error showing transparent image:"
        (replaceWithTransparent env (w.emit (.log "Media stopped — hiding poster")))).emit
          (.writeHeader 200) := by
    unfold handleWebhook
    simp only [hparse, hpay, hjson, if_false, if_neg hk, if_neg hnp, if_pos hev]
  refine ⟨heq, ?_, ?_⟩
  · rw [heq]
    simp only [emit_trace, List.filter_append, logIfErr_fetches, replaceWithTransparent_fetches]
    simp [emit_fs, emit_trace, setFile_trace, setFile_fs_same, Effect.isFetch]
  · intro c hopen hthere hread hcreate hwrite hrename
    obtain ⟨h1, h2, h3, h4⟩ := replaceWithTransparent_ok env
      (w.emit (.log "Media stopped — hiding poster")) c hopen hthere hread hcreate hwrite hrename
    have hres : replaceWithTransparent env (w.emit (.log "Media stopped — hiding poster")) =
        (none, (replaceWithTransparent env (w.emit (.log "Media stopped — hiding poster"))).2) :=
      Prod.ext h1 rfl
    rw [heq, hres]
    simp only [logIfErr, emit_fs, emit_trace, h2, h3, h4, List.append_assoc, List.cons_append,
      List.nil_append, List.singleton_append, and_self]

/-- Witness for C3: scenario C, a movie that stops, with a readable
placeholder `[7, 7]` and no failing call. -/
theorem stop_publishes_placeholder_witness :
    ((sampleRequest "payload").parseErr = none ∧ (sampleRequest "payload").payload ≠ "" ∧
     (samplePayload "media.stop" "movie" "/m/1" "").Metadata.Type_ = "movie" ∧
     (samplePayload "media.stop" "movie" "/m/1" "").Event = "media.stop" ∧
     sampleWorld.fs transparent = some [7, 7]) ∧
    (handleWebhook defaultConfig
        (quietEnv (samplePayload "media.stop" "movie" "/m/1" "") (.error "down") (.error "none"))
        (sampleRequest "payload") sampleWorld).fs savePath = some [7, 7] :=
  ⟨by decide,
   ((stop_publishes_placeholder defaultConfig
      (quietEnv (samplePayload "media.stop" "movie" "/m/1" "") (.error "down") (.error "none"))
      (sampleRequest "payload") sampleWorld (samplePayload "media.stop" "movie" "/m/1" "")
      rfl (by decide) rfl (Or.inl rfl) rfl).2.2 [7, 7] rfl (by decide) rfl rfl rfl rfl).1⟩

/-! ## Failures (claims C5, C6, C7, C8) -/

/-- C5: over an explicit file system, in every run of `fetchPoster` that
reaches the file-system stage and in every run of `replaceWithTransparent`
that has opened the placeholder, if creating the temporary file, writing it
(or, for the placeholder, reading it while copying) or renaming it onto the
published path fails, the function returns an error and the content at the
published path is exactly what it was before the call. -/
theorem publish_failure_keeps_published_file (cfg : Config) (env : Env) (thumb : String)
    (w : World) (resp : Response) (imgData : Bytes) (srcImage : Image) (c : Bytes) :
    (env.httpGet (cfg.plexHost ++ thumb ++ "?X-Plex-Token=" ++ cfg.plexToken) = .ok resp →
      resp.Body = .ok imgData → env.imageDecode imgData = .ok srcImage →
      (env.createErr tmpFile ≠ none ∨
       env.writeErr tmpFile (env.pngBytes (finalImage cfg env.fa srcImage)) ≠ none ∨
       env.renameErr tmpFile savePath ≠ none) →
      (fetchPoster cfg env thumb w).1 ≠ none ∧
      (fetchPoster cfg env thumb w).2.fs savePath = w.fs savePath) ∧
    (env.openErr transparent = none → w.fs transparent = some c →
      (env.createErr tmpFile ≠ none ∨ env.readErr transparent ≠ none ∨
       env.writeErr tmpFile c ≠ none ∨ env.renameErr tmpFile savePath ≠ none) →
      (replaceWithTransparent env w).1 ≠ none ∧
      (replaceWithTransparent env w).2.fs savePath = w.fs savePath) := by
  constructor
  · intro hget hbody hdec hfail
    have herr : (fetchPoster cfg env thumb w).1 ≠ none := by
      rw [fetchPoster_of_decoded cfg env thumb w resp imgData srcImage hget hbody hdec]
      cases hc : env.createErr tmpFile with
      | some e => simp [emit_fs, emit_trace, setFile_trace, setFile_fs_same, osCreate, hc]
      | none =>
        by_cases hsz : (finalImage cfg env.fa srcImage).Bounds.Dx ≤ 0 ∨
            (finalImage cfg env.fa srcImage).Bounds.Dy ≤ 0 ∨
            (finalImage cfg env.fa srcImage).Bounds.Dx ≥ 2 ^ 32 ∨
            (finalImage cfg env.fa srcImage).Bounds.Dy ≥ 2 ^ 32
        · have hpe : ∀ w2, pngEncode env tmpFile (finalImage cfg env.fa srcImage) w2 =
              (some "png: invalid format: invalid image size", w2) := by
            intro w2; unfold pngEncode; rw [if_pos hsz]
          simp [emit_fs, emit_trace, setFile_trace, setFile_fs_same, osCreate, hc, hpe]
        · have hpe : ∀ w2, pngEncode env tmpFile (finalImage cfg env.fa srcImage) w2 =
              writeFile env tmpFile (env.pngBytes (finalImage cfg env.fa srcImage)) w2 := by
            intro w2; unfold pngEncode; rw [if_neg hsz]
          cases hw : env.writeErr tmpFile (env.pngBytes (finalImage cfg env.fa srcImage)) with
          | some ne => simp [emit_fs, emit_trace, setFile_trace, setFile_fs_same,
              osCreate, hc, hpe, writeFile, hw]
          | none =>
            cases hr : env.renameErr tmpFile savePath with
            | some e => simp [emit_fs, emit_trace, setFile_trace, setFile_fs_same,
                osCreate, hc, hpe, writeFile, hw, osRename, hr]
            | none => simp [emit_fs, emit_trace, setFile_trace, setFile_fs_same,
                hc, hw, hr] at hfail
    exact ⟨herr, fetchPoster_err_keeps cfg env thumb w herr⟩
  · intro hopen hthere hfail
    have h2 : transparent ≠ tmpFile := transparent_ne_tmpFile
    have herr : (replaceWithTransparent env w).1 ≠ none := by
      cases hc : env.createErr tmpFile with
      | some e => simp [emit_fs, emit_trace, setFile_trace, setFile_fs_same,
          replaceWithTransparent, osOpen, hopen, hthere, osCreate, hc]
      | none =>
        cases hrd : env.readErr transparent with
        | some ne =>
          cases hw : env.writeErr tmpFile (List.take ne.1 c) with
          | some me =>
            simp [emit_fs, emit_trace, setFile_trace, setFile_fs_same,
                replaceWithTransparent, osOpen, hopen, hthere, osCreate, hc, ioCopy, hrd,
              writeFile, hw, World.setFile, World.emit, h2]
          | none =>
            simp [emit_fs, emit_trace, setFile_trace, setFile_fs_same,
                replaceWithTransparent, osOpen, hopen, hthere, osCreate, hc, ioCopy, hrd,
              writeFile, hw, World.setFile, World.emit, h2]
        | none =>
          cases hw : env.writeErr tmpFile c with
          | some me =>
            simp [emit_fs, emit_trace, setFile_trace, setFile_fs_same,
                replaceWithTransparent, osOpen, hopen, hthere, osCreate, hc, ioCopy, hrd,
              writeFile, hw, World.setFile, World.emit, h2]
          | none =>
            cases hr : env.renameErr tmpFile savePath with
            | some e =>
              simp [emit_fs, emit_trace, setFile_trace, setFile_fs_same,
                  replaceWithTransparent, osOpen, hopen, hthere, osCreate, hc, ioCopy, hrd,
                writeFile, hw, World.setFile, World.emit, h2, osRename, hr]
            | none => simp [emit_fs, emit_trace, setFile_trace, setFile_fs_same,
                hc, hrd, hw, hr] at hfail
    exact ⟨herr, replaceWithTransparent_err_keeps env w herr⟩

/-- Witness for C5: the write of the temporary file fails after one byte,
once in `fetchPoster` and once in `replaceWithTransparent`; the published
poster `[1, 2, 3]` stays. -/
theorem publish_failure_keeps_published_file_witness :
    ((failingEnv false (some 1) false).createErr tmpFile = none ∧
     (failingEnv false (some 1) false).writeErr tmpFile [7, 7] ≠ none ∧
     sampleWorld.fs transparent = some [7, 7] ∧ sampleWorld.fs savePath = some [1, 2, 3]) ∧
    ((fetchPoster defaultConfig (failingEnv false (some 1) false) "/m/1" sampleWorld).1 ≠ none ∧
     (fetchPoster defaultConfig (failingEnv false (some 1) false) "/m/1" sampleWorld).2.fs savePath
       = sampleWorld.fs savePath) ∧
    ((replaceWithTransparent (failingEnv false (some 1) false) sampleWorld).1 ≠ none ∧
     (replaceWithTransparent (failingEnv false (some 1) false) sampleWorld).2.fs savePath
       = sampleWorld.fs savePath) :=
  ⟨by decide,
   (publish_failure_keeps_published_file defaultConfig (failingEnv false (some 1) false) "/m/1"
      sampleWorld ⟨200, .ok [80, 78, 71]⟩ [80, 78, 71] (solidImage 4 4 ⟨9, 9, 9, 255⟩) [7, 7]).1
      rfl rfl rfl (Or.inr (Or.inl (by simp [emit_fs, emit_trace, setFile_trace, setFile_fs_same,
          failingEnv]))),
   (publish_failure_keeps_published_file defaultConfig (failingEnv false (some 1) false) "/m/1"
      sampleWorld ⟨200, .ok [80, 78, 71]⟩ [80, 78, 71] (solidImage 4 4 ⟨9, 9, 9, 255⟩) [7, 7]).2
      rfl (by decide) (Or.inr (Or.inr (Or.inl (by simp [emit_fs, emit_trace, setFile_trace, setFile_fs_same,
          failingEnv]))))⟩

/-- C6 as stated fails: with the published poster `[1, 2, 3]` in place, a
response of status 500 whose body decodes as a 4 by 4 image makes
`fetchPoster` return `nil` and replace the published file by the new
1080 by 1920 poster. -/
theorem failed_fetch_counterexample :
    (fetchPoster defaultConfig
        (quietEnv (samplePayload "media.play" "movie" "/m/1" "")
          (.ok ⟨500, .ok [80, 78, 71]⟩) (.ok (solidImage 4 4 ⟨9, 9, 9, 255⟩)))
        "/m/1" sampleWorld).1 = none ∧
    sampleWorld.fs savePath = some [1, 2, 3] ∧
    (fetchPoster defaultConfig
        (quietEnv (samplePayload "media.play" "movie" "/m/1" "")
          (.ok ⟨500, .ok [80, 78, 71]⟩) (.ok (solidImage 4 4 ⟨9, 9, 9, 255⟩)))
        "/m/1" sampleWorld).2.fs savePath = some [1080, 1920] := by
  have h := fetchPoster_ok defaultConfig
    (quietEnv (samplePayload "media.play" "movie" "/m/1" "")
      (.ok ⟨500, .ok [80, 78, 71]⟩) (.ok (solidImage 4 4 ⟨9, 9, 9, 255⟩)))
    "/m/1" sampleWorld ⟨500, .ok [80, 78, 71]⟩ [80, 78, 71] (solidImage 4 4 ⟨9, 9, 9, 255⟩)
    rfl rfl rfl (by decide) (by decide) (by decide) (by decide) rfl rfl rfl
  have hb := finalImage_bounds defaultConfig exactArith (solidImage 4 4 ⟨9, 9, 9, 255⟩)
    (by decide) (by decide)
  refine ⟨h.1, by decide, ?_⟩
  rw [h.2.1]
  show some [(finalImage defaultConfig exactArith (solidImage 4 4 ⟨9, 9, 9, 255⟩)).Bounds.Dx.toNat,
    (finalImage defaultConfig exactArith (solidImage 4 4 ⟨9, 9, 9, 255⟩)).Bounds.Dy.toNat] = _
  rw [hb]
  decide

/-- C6, amended: for every artwork fetch that fails by a transport error, by a
failure to read the response body, or because the body does not decode as an
image, `fetchPoster` returns an error, makes no file operation and leaves the
whole file system, the published file included, unchanged. The status code of
the response is never examined: relabelling every response with any status
code changes nothing in the run. -/
theorem failed_fetch_keeps_published_file (cfg : Config) (env : Env) (thumb : String)
    (w : World) :
    (((∃ e, env.httpGet (cfg.plexHost ++ thumb ++ "?X-Plex-Token=" ++ cfg.plexToken)
              = .error e) ∨
      (∃ resp e, env.httpGet (cfg.plexHost ++ thumb ++ "?X-Plex-Token=" ++ cfg.plexToken)
              = .ok resp ∧ resp.Body = .error e) ∨
      (∃ resp data e, env.httpGet (cfg.plexHost ++ thumb ++ "?X-Plex-Token=" ++ cfg.plexToken)
              = .ok resp ∧ resp.Body = .ok data ∧ env.imageDecode data = .error e)) →
      (fetchPoster cfg env thumb w).1 ≠ none ∧
      (fetchPoster cfg env thumb w).2.fs = w.fs ∧
      (fetchPoster cfg env thumb w).2.fs savePath = w.fs savePath ∧
      (fetchPoster cfg env thumb w).2.trace = w.trace ++
        [.httpGet (cfg.plexHost ++ thumb ++ "?X-Plex-Token=" ++ cfg.plexToken)]) ∧
    (∀ code : Nat, fetchPoster cfg (env.withStatus code) thumb w = fetchPoster cfg env thumb w) := by
  constructor
  · intro hfail
    obtain ⟨e, he⟩ := fetchPoster_of_fetch_failure cfg env thumb w hfail
    rw [he]
    simp [emit_fs, emit_trace, setFile_trace, setFile_fs_same]
  · intro code
    cases hget : env.httpGet (cfg.plexHost ++ thumb ++ "?X-Plex-Token=" ++ cfg.plexToken) with
    | error e => simp [emit_fs, emit_trace, setFile_trace, setFile_fs_same,
        fetchPoster, Env.withStatus, hget, Except.map]
    | ok resp =>
      simp only [fetchPoster, Env.withStatus, hget, Except.map]
      rfl

/-- Witness for C6 amended: the server answers 500 with a body that is not
an image. -/
theorem failed_fetch_keeps_published_file_witness :
    ((quietEnv (samplePayload "media.play" "movie" "/m/1" "")
        (.ok ⟨500, .ok [60, 104, 49, 62]⟩) (.error "image: unknown format")).imageDecode
        [60, 104, 49, 62] = .error "image: unknown format") ∧
    (fetchPoster defaultConfig
        (quietEnv (samplePayload "media.play" "movie" "/m/1" "")
          (.ok ⟨500, .ok [60, 104, 49, 62]⟩) (.error "image: unknown format"))
        "/m/1" sampleWorld).1 ≠ none ∧
    (fetchPoster defaultConfig
        (quietEnv (samplePayload "media.play" "movie" "/m/1" "")
          (.ok ⟨500, .ok [60, 104, 49, 62]⟩) (.error "image: unknown format"))
        "/m/1" sampleWorld).2.fs savePath = sampleWorld.fs savePath :=
  ⟨rfl,
   ((failed_fetch_keeps_published_file defaultConfig
      (quietEnv (samplePayload "media.play" "movie" "/m/1" "")
        (.ok ⟨500, .ok [60, 104, 49, 62]⟩) (.error "image: unknown format"))
      "/m/1" sampleWorld).1
      (Or.inr (Or.inr ⟨⟨500, .ok [60, 104, 49, 62]⟩, [60, 104, 49, 62],
        "image: unknown format", rfl, rfl, rfl⟩))).1,
   ((failed_fetch_keeps_published_file defaultConfig
      (quietEnv (samplePayload "media.play" "movie" "/m/1" "")
        (.ok ⟨500, .ok [60, 104, 49, 62]⟩) (.error "image: unknown format"))
      "/m/1" sampleWorld).1
      (Or.inr (Or.inr ⟨⟨500, .ok [60, 104, 49, 62]⟩, [60, 104, 49, 62],
        "image: unknown format", rfl, rfl, rfl⟩))).2.2.1⟩

/-- C7 as stated fails: a movie that starts playing with an empty `thumb`
makes `handleWebhook` issue `http.Get` for the bare host URL; when the server
answers with an image it is published, and no error is logged. -/
theorem empty_reference_counterexample :
    thumbPath (samplePayload "media.play" "movie" "" "/show/2/thumb") = "" ∧
    (handleWebhook defaultConfig
        (quietEnv (samplePayload "media.play" "movie" "" "/show/2/thumb")
          (.ok ⟨200, .ok [80, 78, 71]⟩) (.ok (solidImage 4 4 ⟨9, 9, 9, 255⟩)))
        (sampleRequest "payload") sampleWorld).trace =
      [.log "Now playing: Some Title (movie)",
       .httpGet "http://plex.local:32400?X-Plex-Token=secret",
       .create "./output/now-playing.png.tmp",
       .write "./output/now-playing.png.tmp" [1080, 1920],
       .rename "./output/now-playing.png.tmp" "./output/now-playing.png",
       .writeHeader 200] ∧
    (handleWebhook defaultConfig
        (quietEnv (samplePayload "media.play" "movie" "" "/show/2/thumb")
          (.ok ⟨200, .ok [80, 78, 71]⟩) (.ok (solidImage 4 4 ⟨9, 9, 9, 255⟩)))
        (sampleRequest "payload") sampleWorld).fs savePath = some [1080, 1920] := by
  have hb := finalImage_bounds defaultConfig exactArith (solidImage 4 4 ⟨9, 9, 9, 255⟩)
    (by decide) (by decide)
  have hpb : (quietEnv (samplePayload "media.play" "movie" "" "/show/2/thumb")
      (.ok ⟨200, .ok [80, 78, 71]⟩) (.ok (solidImage 4 4 ⟨9, 9, 9, 255⟩))).pngBytes
      (finalImage defaultConfig (quietEnv (samplePayload "media.play" "movie" "" "/show/2/thumb")
        (.ok ⟨200, .ok [80, 78, 71]⟩) (.ok (solidImage 4 4 ⟨9, 9, 9, 255⟩))).fa
        (solidImage 4 4 ⟨9, 9, 9, 255⟩)) = [1080, 1920] := by
    show [(finalImage defaultConfig exactArith (solidImage 4 4 ⟨9, 9, 9, 255⟩)).Bounds.Dx.toNat,
      (finalImage defaultConfig exactArith (solidImage 4 4 ⟨9, 9, 9, 255⟩)).Bounds.Dy.toNat] = _
    rw [hb]; decide
  have hplay := (handleWebhook_of_play defaultConfig
    (quietEnv (samplePayload "media.play" "movie" "" "/show/2/thumb")
      (.ok ⟨200, .ok [80, 78, 71]⟩) (.ok (solidImage 4 4 ⟨9, 9, 9, 255⟩)))
    (sampleRequest "payload") sampleWorld (samplePayload "media.play" "movie" "" "/show/2/thumb")
    rfl (by decide) rfl (Or.inl rfl) (Or.inl rfl) "" (by decide)).1
  obtain ⟨h1, h2, h3⟩ := fetchPoster_ok defaultConfig
    (quietEnv (samplePayload "media.play" "movie" "" "/show/2/thumb")
      (.ok ⟨200, .ok [80, 78, 71]⟩) (.ok (solidImage 4 4 ⟨9, 9, 9, 255⟩))) ""
    (sampleWorld.emit (.log ("Now playing: " ++
      (samplePayload "media.play" "movie" "" "/show/2/thumb").Metadata.Title ++ " (" ++
      (samplePayload "media.play" "movie" "" "/show/2/thumb").Metadata.Type_ ++ ")")))
    ⟨200, .ok [80, 78, 71]⟩ [80, 78, 71] (solidImage 4 4 ⟨9, 9, 9, 255⟩) rfl rfl rfl
    (by decide) (by decide) (by decide) (by decide) rfl rfl rfl
  rw [hpb] at h2 h3
  refine ⟨by decide, ?_, ?_⟩
  · rw [hplay, logIfErr_of_ok _ _ h1, emit_trace, h3]
    decide
  · rw [hplay, logIfErr_of_ok _ _ h1, emit_fs, h2]

/-- C7, amended: for every movie or episode notification with event kind
media.play or media.resume whose chosen artwork reference is the empty
string, `handleWebhook` calls `fetchPoster` with the empty reference like any
other reference: exactly one `http.Get` is issued, for the host URL followed
by the token query; an error is logged exactly when `fetchPoster` returns
one, and when it returns none nothing but the 200 status follows its calls. -/
theorem empty_reference_is_fetched (cfg : Config) (env : Env) (r : Request) (w : World)
    (p : PlexPayload) (hparse : r.parseErr = none) (hpay : r.payload ≠ "")
    (hjson : env.jsonUnmarshal r.payload = .ok p)
    (hkind : p.Metadata.Type_ = "movie" ∨ p.Metadata.Type_ = "episode")
    (hev : p.Event = "media.play" ∨ p.Event = "media.resume")
    (hempty : (if p.Metadata.Type_ = "episode" ∧ p.Metadata.GrandparentThumb ≠ "" then
        p.Metadata.GrandparentThumb else p.Metadata.Thumb) = "") :
    handleWebhook cfg env r w =
      (logIfErr "Error fetching poster:"
        (fetchPoster cfg env ""
          (w.emit (.log ("Now playing: " ++ p.Metadata.Title ++ " (" ++ p.Metadata.Type_
            ++ ")"))))).emit (.writeHeader 200) ∧
    (handleWebhook cfg env r w).trace.filter Effect.isFetch =
      w.trace.filter Effect.isFetch ++
        [.httpGet (cfg.plexHost ++ "?X-Plex-Token=" ++ cfg.plexToken)] ∧
    ((fetchPoster cfg env ""
        (w.emit (.log ("Now playing: " ++ p.Metadata.Title ++ " (" ++ p.Metadata.Type_
          ++ ")")))).1 = none →
      (handleWebhook cfg env r w).trace =
        (fetchPoster cfg env ""
          (w.emit (.log ("Now playing: " ++ p.Metadata.Title ++ " (" ++ p.Metadata.Type_
            ++ ")")))).2.trace ++ [.writeHeader 200]) ∧
    (∀ e, (fetchPoster cfg env ""
        (w.emit (.log ("Now playing: " ++ p.Metadata.Title ++ " (" ++ p.Metadata.Type_
          ++ ")")))).1 = some e →
      (handleWebhook cfg env r w).trace =
        (fetchPoster cfg env ""
          (w.emit (.log ("Now playing: " ++ p.Metadata.Title ++ " (" ++ p.Metadata.Type_
            ++ ")")))).2.trace ++ [.log ("Error fetching poster:" ++ " " ++ e),
              .writeHeader 200]) := by
  obtain ⟨heq, hfetch⟩ := handleWebhook_of_play cfg env r w p hparse hpay hjson hkind hev ""
    hempty
  refine ⟨heq, ?_, ?_, ?_⟩
  · rw [hfetch, String.append_empty]
  · intro hok
    rw [heq, logIfErr_of_ok _ _ hok, emit_trace]
  · intro e herr
    rw [heq, logIfErr_of_err _ _ e herr, emit_trace, emit_trace, List.append_assoc]
    rfl

/-- Witness for C7 amended: a movie with an empty `thumb`, the server down. -/
theorem empty_reference_is_fetched_witness :
    ((sampleRequest "payload").parseErr = none ∧ (sampleRequest "payload").payload ≠ "" ∧
     (samplePayload "media.play" "movie" "" "").Metadata.Type_ = "movie" ∧
     (samplePayload "media.play" "movie" "" "").Event = "media.play" ∧
     (samplePayload "media.play" "movie" "" "").Metadata.Thumb = "") ∧
    (handleWebhook defaultConfig
        (quietEnv (samplePayload "media.play" "movie" "" "") (.error "down") (.error "none"))
        (sampleRequest "payload") sampleWorld).trace.filter Effect.isFetch =
      sampleWorld.trace.filter Effect.isFetch ++
        [.httpGet (defaultConfig.plexHost ++ "?X-Plex-Token=" ++ defaultConfig.plexToken)] :=
  ⟨by decide,
   (empty_reference_is_fetched defaultConfig
      (quietEnv (samplePayload "media.play" "movie" "" "") (.error "down") (.error "none"))
      (sampleRequest "payload") sampleWorld (samplePayload "media.play" "movie" "" "")
      rfl (by decide) rfl (Or.inl rfl) (Or.inl rfl) (by decide)).2.1⟩

/-- C8 as stated fails: a decoded source of width 0 and height 5 raises no
error; `fetchPoster` returns `nil` and the published poster `[1, 2, 3]` is
replaced by the encoding of a 1080 by 1920 canvas. -/
theorem degenerate_source_counterexample :
    (solidImage 0 5 ⟨9, 9, 9, 255⟩).Bounds.Dx = 0 ∧
    sampleWorld.fs savePath = some [1, 2, 3] ∧
    (fetchPoster defaultConfig
        (quietEnv (samplePayload "media.play" "movie" "/m/1" "")
          (.ok ⟨200, .ok [80, 78, 71]⟩) (.ok (solidImage 0 5 ⟨9, 9, 9, 255⟩)))
        "/m/1" sampleWorld).1 = none ∧
    (fetchPoster defaultConfig
        (quietEnv (samplePayload "media.play" "movie" "/m/1" "")
          (.ok ⟨200, .ok [80, 78, 71]⟩) (.ok (solidImage 0 5 ⟨9, 9, 9, 255⟩)))
        "/m/1" sampleWorld).2.fs savePath = some [1080, 1920] := by
  have h := fetchPoster_ok defaultConfig
    (quietEnv (samplePayload "media.play" "movie" "/m/1" "")
      (.ok ⟨200, .ok [80, 78, 71]⟩) (.ok (solidImage 0 5 ⟨9, 9, 9, 255⟩)))
    "/m/1" sampleWorld ⟨200, .ok [80, 78, 71]⟩ [80, 78, 71] (solidImage 0 5 ⟨9, 9, 9, 255⟩)
    rfl rfl rfl (by decide) (by decide) (by decide) (by decide) rfl rfl rfl
  have hb := finalImage_bounds defaultConfig exactArith (solidImage 0 5 ⟨9, 9, 9, 255⟩)
    (by decide) (by decide)
  refine ⟨by decide, by decide, h.1, ?_⟩
  rw [h.2.1]
  show some [(finalImage defaultConfig exactArith (solidImage 0 5 ⟨9, 9, 9, 255⟩)).Bounds.Dx.toNat,
    (finalImage defaultConfig exactArith (solidImage 0 5 ⟨9, 9, 9, 255⟩)).Bounds.Dy.toNat] = _
  rw [hb]
  decide

/-- C8, amended: for every decoded source image with zero width or zero
height and every positive canvas size (below 2^32), the compositing step of
`fetchPoster` raises no error: `final` is the canvas, every pixel opaque
black, and when creating, writing and renaming the temporary file succeed
`fetchPoster` returns `nil` and the published file holds the encoding of that
blank canvas. -/
theorem degenerate_source_publishes_blank_canvas (cfg : Config) (env : Env) (thumb : String)
    (w : World) (resp : Response) (imgData : Bytes) (srcImage : Image)
    (hget : env.httpGet (cfg.plexHost ++ thumb ++ "?X-Plex-Token=" ++ cfg.plexToken) = .ok resp)
    (hbody : resp.Body = .ok imgData) (hdec : env.imageDecode imgData = .ok srcImage)
    (hdeg : srcImage.Bounds.Dx = 0 ∨ srcImage.Bounds.Dy = 0)
    (hW : 0 < cfg.canvasWidth) (hH : 0 < cfg.canvasHeight)
    (hW32 : cfg.canvasWidth < 2 ^ 32) (hH32 : cfg.canvasHeight < 2 ^ 32)
    (hcreate : env.createErr tmpFile = none)
    (hwrite : env.writeErr tmpFile (env.pngBytes (finalImage cfg env.fa srcImage)) = none)
    (hrename : env.renameErr tmpFile savePath = none) :
    (finalImage cfg env.fa srcImage).Bounds = ⟨⟨0, 0⟩, ⟨cfg.canvasWidth, cfg.canvasHeight⟩⟩ ∧
    (∀ x y : Int, 0 ≤ x → x < cfg.canvasWidth → 0 ≤ y → y < cfg.canvasHeight →
      (finalImage cfg env.fa srcImage).At x y = ⟨0, 0, 0, 255⟩) ∧
    (fetchPoster cfg env thumb w).1 = none ∧
    (fetchPoster cfg env thumb w).2.fs savePath
      = some (env.pngBytes (finalImage cfg env.fa srcImage)) := by
  have hd : srcImage.Bounds.Dx ≤ 0 ∨ srcImage.Bounds.Dy ≤ 0 := by
    rcases hdeg with h | h
    · exact Or.inl (le_of_eq h)
    · exact Or.inr (le_of_eq h)
  have hok := fetchPoster_ok cfg env thumb w resp imgData srcImage hget hbody hdec hW hH hW32
    hH32 hcreate hwrite hrename
  refine ⟨finalImage_bounds cfg env.fa srcImage hW hH, ?_, hok.1, hok.2.1⟩
  intro x y _ _ _ _
  rw [finalImage_of_degenerate cfg env.fa srcImage hd]
  exact New_At hW hH _ _ _

/-- Witness for C8 amended: a 0 by 5 source on the default canvas. -/
theorem degenerate_source_publishes_blank_canvas_witness :
    ((solidImage 0 5 ⟨9, 9, 9, 255⟩).Bounds.Dx = 0 ∧
     0 < defaultConfig.canvasWidth ∧ 0 < defaultConfig.canvasHeight ∧
     defaultConfig.canvasWidth < 2 ^ 32 ∧ defaultConfig.canvasHeight < 2 ^ 32) ∧
    (fetchPoster defaultConfig
        (quietEnv (samplePayload "media.play" "movie" "/m/1" "")
          (.ok ⟨200, .ok [80, 78, 71]⟩) (.ok (solidImage 0 5 ⟨9, 9, 9, 255⟩)))
        "/m/1" sampleWorld).1 = none :=
  ⟨by decide,
   (degenerate_source_publishes_blank_canvas defaultConfig
      (quietEnv (samplePayload "media.play" "movie" "/m/1" "")
        (.ok ⟨200, .ok [80, 78, 71]⟩) (.ok (solidImage 0 5 ⟨9, 9, 9, 255⟩)))
      "/m/1" sampleWorld ⟨200, .ok [80, 78, 71]⟩ [80, 78, 71] (solidImage 0 5 ⟨9, 9, 9, 255⟩)
      rfl rfl rfl (Or.inl (by decide)) (by decide) (by decide) (by decide) (by decide)
      rfl rfl rfl).2.2.1⟩

/-! ## Concurrent publishes (claim C10) -/

/-- One goroutine alone publishes atomically: the reader sees the prior
content until the rename, and the whole output from then on. -/
theorem single_publish_observations (prior output : Bytes) :
    observations [0, 0, 0] [⟨output, .start⟩] (diskWith prior) =
      [some prior, some prior, some output] := by
  have h1 : tmpFile ≠ savePath := tmpFile_ne_savePath
  simp [emit_fs, emit_trace, setFile_trace, setFile_fs_same,
      observations, stepAt, Publisher.step, Disk.create, Disk.writeAtStart, Disk.rename,
    Disk.read, diskWith, h1, h1.symm]

/-- C10 fails on the code. One goroutine alone publishes atomically. Two
goroutines publish `[10, 11, 12]` and `[7, 7]` over the prior poster
`[1, 2, 3]`, both through the one temporary path. Serially (schedule
0,0,0,1,1,1) a reader only ever sees a complete artifact.
But (a) with the schedule create0, write0, create1, rename0 the second
`os.Create` empties the file that the first goroutine then renames onto the
published path: the reader sees an empty file; and (b) with create0, create1,
write0, write1, rename1 both goroutines write the same file and the reader
sees `[7, 7, 12]`, a mixture of the two outputs. Hence it is not true that
under every schedule every observation is the prior poster or one of the two
outputs. -/
theorem concurrent_publish_is_not_atomic :
    (∀ prior output : Bytes, observations [0, 0, 0] [⟨output, .start⟩] (diskWith prior) =
      [some prior, some prior, some output]) ∧
    observations [0, 0, 0, 1, 1, 1] [⟨[10, 11, 12], .start⟩, ⟨[7, 7], .start⟩]
        (diskWith [1, 2, 3]) =
      [some [1, 2, 3], some [1, 2, 3], some [10, 11, 12], some [10, 11, 12],
       some [10, 11, 12], some [7, 7]] ∧
    observations [0, 0, 1, 0] [⟨[10, 11, 12], .start⟩, ⟨[7, 7], .start⟩] (diskWith [1, 2, 3]) =
      [some [1, 2, 3], some [1, 2, 3], some [1, 2, 3], some []] ∧
    observations [0, 1, 0, 1, 1] [⟨[10, 11, 12], .start⟩, ⟨[7, 7], .start⟩]
        (diskWith [1, 2, 3]) =
      [some [1, 2, 3], some [1, 2, 3], some [1, 2, 3], some [1, 2, 3], some [7, 7, 12]] ∧
    ¬ (∀ sched : List Nat,
        ∀ o ∈ observations sched [⟨[10, 11, 12], .start⟩, ⟨[7, 7], .start⟩] (diskWith [1, 2, 3]),
          o = some [1, 2, 3] ∨ o = some [10, 11, 12] ∨ o = some [7, 7]) := by
  refine ⟨single_publish_observations, by decide, by decide, by decide, ?_⟩
  intro h
  have h1 := h [0, 0, 1, 0] (some []) (by decide)
  revert h1
  decide

end PlexPoster
